import Mathlib

/-!
Verification of the `crd` crate of the zookeeper-operator repository
(`src/crd/src/lib.rs`), shallowly embedded in Lean.

The embedding covers:
* the `ZooKeeperVersion` enumeration with its two string tables
  (the `serde(rename = ...)` table and the `strum(serialize = ...)` table);
* the `strum`-derived `FromStr` conversion;
* the semantic-version parse and comparison used by `is_valid_upgrade`
  (the `semver` crate's `Version::parse` restricted to plain
  `major.minor.patch` strings, which is all the enumerated table contains);
* `ZooKeeperVersion::is_valid_upgrade`;
* the `ZooKeeperConfiguration` record and its projection into a flat
  string-to-string mapping;
* the `ZooKeeperClusterStatus` record, its serde serialization shape, and
  `target_image_name`.
-/

namespace ZookeeperCrd

/-- The `ZooKeeperVersion` enum from `src/crd/src/lib.rs`: a closed
enumeration of the supported versions. -/
inductive ZooKeeperVersion where
  | v3_4_14
  | v3_5_8
deriving DecidableEq, Repr, Fintype

/-- The `strum(serialize = ...)` string table: this is what
`ZooKeeperVersion::to_string()` (the `strum_macros::Display` derive)
produces, and what `is_valid_upgrade` feeds to the semver parser. -/
def strumSerialize : ZooKeeperVersion → String
  | .v3_4_14 => "3.4.14"
  | .v3_5_8 => "3.5.8"

/-- The `serde(rename = ...)` string table: this is what serde
serialization of a `ZooKeeperVersion` produces (a JSON string with this
content), and what `target_image_name` extracts via
`serde_json::json!(version).as_str()`. -/
def serdeRename : ZooKeeperVersion → String
  | .v3_4_14 => "3.4.14"
  | .v3_5_8 => "3.5.8"

/-- The error raised when a string matches no enumerated variant. In the
code this is `strum`'s `ParseError::VariantNotFound`, which the spec calls
`VersionError::UnknownVersion`. -/
inductive VersionError where
  | UnknownVersion
deriving DecidableEq, Repr

/-- The `strum_macros::EnumString`-derived `from_str`: a string is matched
against the `strum(serialize = ...)` table; anything else is an error. -/
def from_str (s : String) : Except VersionError ZooKeeperVersion :=
  if s = "3.4.14" then .ok .v3_4_14
  else if s = "3.5.8" then .ok .v3_5_8
  else .error .UnknownVersion

/-- A parsed semantic version: the `semver` crate's `Version` restricted
to its numeric triple (the enumerated strings carry no pre-release or
build metadata). -/
structure SemVer where
  major : Nat
  minor : Nat
  patch : Nat
deriving DecidableEq, Repr

/-- Split a character list on the dot character. -/
def splitOnDot : List Char → List (List Char)
  | [] => [[]]
  | c :: cs =>
    if c = '.' then [] :: splitOnDot cs
    else
      match splitOnDot cs with
      | r :: rs => (c :: r) :: rs
      | [] => [[c]]

/-- Read a nonempty all-digit character list as a base-10 natural
number. -/
def digitsToNatAux : List Char → Nat → Option Nat
  | [], acc => some acc
  | c :: cs, acc =>
    if 48 ≤ c.toNat ∧ c.toNat ≤ 57 then digitsToNatAux cs (acc * 10 + (c.toNat - 48))
    else none

/-- A nonempty all-digit component, base-10; `none` for an empty or
non-numeric component. -/
def digitsToNat : List Char → Option Nat
  | [] => none
  | c :: cs => digitsToNatAux (c :: cs) 0

/-- `semver::Version::parse` on plain `major.minor.patch` strings (which
is all the enumerated string table contains): split on dots, require
exactly three nonempty all-digit components. -/
def versionParse (s : String) : Option SemVer :=
  match (splitOnDot s.data).map digitsToNat with
  | [some major, some minor, some patch] => some ⟨major, minor, patch⟩
  | _ => none

/-- The `semver` crate's strict ordering on versions without pre-release
tags: lexicographic on (major, minor, patch). `SemVer.lt a b` means
`a < b`. -/
def SemVer.lt (a b : SemVer) : Bool :=
  if a.major ≠ b.major then decide (a.major < b.major)
  else if a.minor ≠ b.minor then decide (a.minor < b.minor)
  else decide (a.patch < b.patch)

/-- The error type of `is_valid_upgrade` in the code: `semver::SemVerError`
(here only its occurrence matters, not its payload). -/
inductive SemVerError where
  | ParseError
deriving DecidableEq, Repr

/-- `ZooKeeperVersion::is_valid_upgrade` from `src/crd/src/lib.rs`:
parse the `strum` string forms of both versions with the semver parser
(propagating a parse failure) and return whether `to > from`. -/
def is_valid_upgrade (self to_ : ZooKeeperVersion) : Except SemVerError Bool :=
  match versionParse (strumSerialize self) with
  | none => .error .ParseError
  | some from_version =>
    match versionParse (strumSerialize to_) with
    | none => .error .ParseError
    | some to_version => .ok (SemVer.lt from_version to_version)

/-- The semantic-version triple of each enumerated version, as the spec
describes it (the dotted components of the version literal). Used to
state what `is_valid_upgrade` must compute. -/
def semverTriple : ZooKeeperVersion → Nat × Nat × Nat
  | .v3_4_14 => (3, 4, 14)
  | .v3_5_8 => (3, 5, 8)

/-- Strict lexicographic comparison of semantic-version triples under
major.minor.patch ordering, as the spec states it. -/
def tripleLtB (a b : Nat × Nat × Nat) : Bool :=
  decide (a.1 < b.1) ||
    (decide (a.1 = b.1) &&
      (decide (a.2.1 < b.2.1) ||
        (decide (a.2.1 = b.2.1) && decide (a.2.2 < b.2.2))))

deriving instance DecidableEq for Except

/-- The strict order on enumerated versions as observed through
`is_valid_upgrade`: `a` is below `b` when the upgrade `a → b` is reported
valid. -/
def ltvB (a b : ZooKeeperVersion) : Bool :=
  decide (is_valid_upgrade a b = .ok true)

/-- The `ZooKeeperConfiguration` struct from `src/crd/src/lib.rs`: five
independently optional tuning parameters. The `u32` fields are modelled
as `Nat` (they are only parsed and formatted, never computed with). -/
structure ZooKeeperConfiguration where
  client_port : Option Nat
  data_dir : Option String
  init_limit : Option Nat
  sync_limit : Option Nat
  tick_time : Option Nat
deriving DecidableEq, Repr

/-- Modelled from the spec: the crate declares `pub mod ser;` and its tests
call `ser::to_hash_map`, but `ser.rs` itself is not present under `src/`.
Per the spec (§4.2, ConfigProjector): one entry per present field, keyed by
the option's canonical external camelCase name (the serde
`rename_all = "camelCase"` wire names of the struct's fields), integers
rendered in base-10, paths verbatim; absent fields emit nothing. -/
def project (c : ZooKeeperConfiguration) : List (String × String) :=
  (match c.client_port with | some n => [("clientPort", toString n)] | none => []) ++
  (match c.data_dir with | some p => [("dataDir", p)] | none => []) ++
  (match c.init_limit with | some n => [("initLimit", toString n)] | none => []) ++
  (match c.sync_limit with | some n => [("syncLimit", toString n)] | none => []) ++
  (match c.tick_time with | some n => [("tickTime", toString n)] | none => [])

/-- Number of present (`Some`) fields of a configuration. -/
def numPresent (c : ZooKeeperConfiguration) : Nat :=
  (if c.client_port.isSome then 1 else 0) +
  (if c.data_dir.isSome then 1 else 0) +
  (if c.init_limit.isSome then 1 else 0) +
  (if c.sync_limit.isSome then 1 else 0) +
  (if c.tick_time.isSome then 1 else 0)

/-- A JSON value, as produced by serde serialization. -/
inductive Json where
  | null : Json
  | str : String → Json
  | num : Int → Json
  | arr : List Json → Json
  | obj : List (String × Json) → Json

/-- `serde_json`'s `Value::as_str`: `Some` of the content for a string
value, `None` for every other value. -/
def Json.asStr : Json → Option String
  | .str s => some s
  | _ => none

/-- serde serialization of a `ZooKeeperVersion`: a JSON string holding the
`serde(rename = ...)` literal of the variant. -/
def serializeVersion (v : ZooKeeperVersion) : Json :=
  Json.str (serdeRename v)

/-- A `k8s_openapi` `Condition`: an opaque structured status record that
this crate only carries through serialization unchanged. -/
structure Condition where
  type_ : String
  status : String
  reason : String
  message : String
  lastTransitionTime : String
deriving DecidableEq, Repr

/-- serde serialization of a `Condition` (passed through field by field). -/
def serializeCondition (c : Condition) : Json :=
  Json.obj
    [("type", Json.str c.type_),
     ("status", Json.str c.status),
     ("reason", Json.str c.reason),
     ("message", Json.str c.message),
     ("lastTransitionTime", Json.str c.lastTransitionTime)]

/-- The `ZooKeeperClusterStatus` struct from `src/crd/src/lib.rs`. -/
structure ZooKeeperClusterStatus where
  current_version : Option ZooKeeperVersion
  target_version : Option ZooKeeperVersion
  conditions : List Condition

/-- serde serialization of a `ZooKeeperClusterStatus`, following the
attributes on the struct: `rename_all = "camelCase"` for the keys,
`skip_serializing_if = "Option::is_none"` on the two version fields, and
`skip_serializing_if = "Vec::is_empty"` on `conditions`. -/
def serializeStatus (s : ZooKeeperClusterStatus) : Json :=
  Json.obj
    ((match s.current_version with
      | some v => [("currentVersion", serializeVersion v)]
      | none => []) ++
     (match s.target_version with
      | some v => [("targetVersion", serializeVersion v)]
      | none => []) ++
     (if s.conditions.isEmpty then []
      else [("conditions", Json.arr (s.conditions.map serializeCondition))]))

/-- Top-level keys of a serialized JSON object. -/
def objKeys : Json → List String
  | .obj fields => fields.map Prod.fst
  | _ => []

/-- Top-level fields of a serialized JSON object. -/
def objFields : Json → List (String × Json)
  | .obj fields => fields
  | _ => []

/-- `ZooKeeperClusterStatus::target_image_name` from `src/crd/src/lib.rs`:
map over `target_version`, serializing the version with `serde_json` and
extracting the string with `as_str().unwrap()`; the `unwrap` panic is
modelled as `Except.error`. -/
def target_image_name (s : ZooKeeperClusterStatus) : Except String (Option String) :=
  match s.target_version with
  | none => .ok none
  | some version =>
    match (serializeVersion version).asStr with
    | some str => .ok (some ("stackable/zookeeper:" ++ str))
    | none => .error "called Option.unwrap on a None value"

/-- C1: for every pair of enumerated versions, `is_valid_upgrade` returns
`Ok` of exactly the strict major.minor.patch comparison of the two
semantic-version triples — `Ok true` iff the target triple is strictly
greater, `Ok false` (not an error) otherwise, and in particular
`is_valid_upgrade a a = Ok false` for every `a`. -/
theorem C1_is_valid_upgrade_semver :
    (∀ a b : ZooKeeperVersion,
      is_valid_upgrade a b = .ok (tripleLtB (semverTriple a) (semverTriple b))) ∧
    (∀ a : ZooKeeperVersion, is_valid_upgrade a a = .ok false) := by
  constructor
  · intro a b
    cases a <;> cases b <;> decide
  · intro a
    cases a <;> decide

/-- C2: parsing round-trips with formatting on the enumerated literals
("3.4.14", "3.5.8"), and parsing any other string fails with the
unknown-version error rather than producing a version. -/
theorem C2_version_string_roundtrip :
    (from_str "3.4.14" = .ok .v3_4_14 ∧ strumSerialize .v3_4_14 = "3.4.14") ∧
    (from_str "3.5.8" = .ok .v3_5_8 ∧ strumSerialize .v3_5_8 = "3.5.8") ∧
    (∀ s : String, s ≠ "3.4.14" → s ≠ "3.5.8" →
      from_str s = .error .UnknownVersion) := by
  refine ⟨by decide, by decide, ?_⟩
  intro s h1 h2
  simp [from_str, h1, h2]

/-- Witness for C2 at the concrete out-of-enumeration input "1.2.3". -/
theorem C2_version_string_roundtrip_witness :
    from_str "1.2.3" = .error .UnknownVersion :=
  C2_version_string_roundtrip.2.2 "1.2.3" (by decide) (by decide)

/-- C3: `project` emits exactly one entry per present field, keyed by the
canonical camelCase name with the value in its canonical string form, and
nothing for absent fields; the all-`None` configuration projects to the
empty mapping and `tick_time = Some 123` alone projects to the single
entry `"tickTime" -> "123"`. -/
theorem C3_project_entries :
    (∀ (c : ZooKeeperConfiguration) (k v : String), (k, v) ∈ project c ↔
      ((k = "clientPort" ∧ ∃ n, c.client_port = some n ∧ v = toString n) ∨
       (k = "dataDir" ∧ ∃ p, c.data_dir = some p ∧ v = p) ∨
       (k = "initLimit" ∧ ∃ n, c.init_limit = some n ∧ v = toString n) ∨
       (k = "syncLimit" ∧ ∃ n, c.sync_limit = some n ∧ v = toString n) ∨
       (k = "tickTime" ∧ ∃ n, c.tick_time = some n ∧ v = toString n))) ∧
    (∀ c : ZooKeeperConfiguration, (project c).length = numPresent c) ∧
    project ⟨none, none, none, none, none⟩ = [] ∧
    project ⟨none, none, none, none, some 123⟩ = [("tickTime", "123")] := by
  refine ⟨?_, ?_, by decide, by decide⟩
  · intro c k v
    obtain ⟨cp, dd, il, sl, tt⟩ := c
    cases cp <;> cases dd <;> cases il <;> cases sl <;> cases tt <;>
      simp [project]
  · intro c
    obtain ⟨cp, dd, il, sl, tt⟩ := c
    cases cp <;> cases dd <;> cases il <;> cases sl <;> cases tt <;>
      simp [project, numPresent]

/-- C4: `target_image_name` returns `None` when `target_version` is
absent, and otherwise `Some` of the fixed repository prefix
"stackable/zookeeper", a colon, and the version's canonical string form;
for example target version 3.5.8 yields "stackable/zookeeper:3.5.8". -/
theorem C4_target_image_name_spec :
    (∀ s : ZooKeeperClusterStatus,
      target_image_name s =
        .ok (s.target_version.map (fun v => "stackable/zookeeper:" ++ serdeRename v))) ∧
    target_image_name ⟨none, some .v3_5_8, []⟩ =
      .ok (some "stackable/zookeeper:3.5.8") := by
  constructor
  · intro s
    obtain ⟨cv, tv, conds⟩ := s
    cases tv with
    | none => rfl
    | some v => cases v <;> rfl
  · decide

/-- C5: `is_valid_upgrade` never returns the parse-failure error on
enumerated versions: every enumerated string form parses as a semantic
version, so the result is always `Ok`. -/
theorem C5_is_valid_upgrade_never_err :
    ∀ a b : ZooKeeperVersion, ∃ r : Bool, is_valid_upgrade a b = .ok r := by
  intro a b
  cases a <;> cases b <;> exact ⟨_, rfl⟩

/-- C6: the ordering observed through `is_valid_upgrade` is a strict
total order on the enumerated versions: irreflexive, asymmetric,
transitive, and any two distinct versions are comparable. -/
theorem C6_version_order_strict_total :
    (∀ a : ZooKeeperVersion, ltvB a a = false) ∧
    (∀ a b : ZooKeeperVersion, (ltvB a b && ltvB b a) = false) ∧
    (∀ a b c : ZooKeeperVersion, (ltvB a b && ltvB b c && !(ltvB a c)) = false) ∧
    (∀ a b : ZooKeeperVersion, (decide (a = b) || ltvB a b || ltvB b a) = true) := by
  refine ⟨?_, ?_, ?_, ?_⟩
  · intro a; cases a <;> decide
  · intro a b; cases a <;> cases b <;> decide
  · intro a b c; cases a <;> cases b <;> cases c <;> decide
  · intro a b; cases a <;> cases b <;> decide

/-- C7: `target_image_name` is total — for every status it returns
normally (`Except.ok`); the JSON-serialize-then-`as_str` step never hits
the `unwrap` failure branch. -/
theorem C7_target_image_name_total :
    ∀ s : ZooKeeperClusterStatus, ∃ r : Option String, target_image_name s = .ok r := by
  intro s
  obtain ⟨cv, tv, conds⟩ := s
  cases tv with
  | none => exact ⟨none, rfl⟩
  | some v => cases v <;> exact ⟨_, rfl⟩

/-- C8: `is_valid_upgrade` and `project` are deterministic — equal
arguments always produce equal results. -/
theorem C8_determinism :
    (∀ a b a' b' : ZooKeeperVersion, a = a' → b = b' →
      is_valid_upgrade a b = is_valid_upgrade a' b') ∧
    (∀ c c' : ZooKeeperConfiguration, c = c' → project c = project c') :=
  ⟨fun _ _ _ _ ha hb => by rw [ha, hb], fun _ _ h => by rw [h]⟩

/-- Witness for C8 at concrete inputs. -/
theorem C8_determinism_witness :
    is_valid_upgrade .v3_4_14 .v3_5_8 = is_valid_upgrade .v3_4_14 .v3_5_8 ∧
    project ⟨none, none, none, none, some 123⟩ =
      project ⟨none, none, none, none, some 123⟩ :=
  ⟨C8_determinism.1 .v3_4_14 .v3_5_8 .v3_4_14 .v3_5_8 rfl rfl,
   C8_determinism.2 ⟨none, none, none, none, some 123⟩ ⟨none, none, none, none, some 123⟩ rfl⟩

/-- C9: the serialized status contains the "currentVersion" key iff
`current_version` is present, the "targetVersion" key iff
`target_version` is present, the "conditions" key iff the condition list
is nonempty, and no emitted top-level value is JSON null. -/
theorem C9_status_serialization_omits_absent :
    ∀ s : ZooKeeperClusterStatus,
      (("currentVersion" ∈ objKeys (serializeStatus s)) ↔ s.current_version.isSome = true) ∧
      (("targetVersion" ∈ objKeys (serializeStatus s)) ↔ s.target_version.isSome = true) ∧
      (("conditions" ∈ objKeys (serializeStatus s)) ↔ s.conditions.isEmpty = false) ∧
      (∀ kv, kv ∈ objFields (serializeStatus s) → kv.2 ≠ Json.null) := by
  intro s
  obtain ⟨cv, tv, conds⟩ := s
  cases cv <;> cases tv <;> cases conds <;>
    simp [serializeStatus, objKeys, objFields, serializeVersion]

/-- Witness for C9: the never-null clause applied at a concrete status
and a concrete emitted field. -/
theorem C9_status_serialization_omits_absent_witness :
    ("currentVersion", Json.str "3.4.14").2 ≠ Json.null :=
  (C9_status_serialization_omits_absent ⟨some .v3_4_14, none, []⟩).2.2.2
    ("currentVersion", Json.str "3.4.14") (List.mem_singleton_self _)

/-- C10: the serde rename table and the strum serialize table agree on
every variant, so serialization and display produce the same canonical
version string. -/
theorem C10_serde_strum_tables_agree :
    ∀ v : ZooKeeperVersion, serdeRename v = strumSerialize v := by
  intro v
  cases v <;> rfl

end ZookeeperCrd
